import Mathlib

/-!
Verification of the SecureChat server against its design specification.

The development shallowly embeds the parts of the code the claims are about:

* the session-cryptography envelope (spec §4.2, header
  `include/crypto/encryption_manager.hpp`; the implementation file of
  `EncryptionManager` is not part of the sources, so the encrypt/decrypt/rekey
  bodies are modelled from the spec, as marked on each definition);
* the connection registry and router (`src/core/server.cpp`,
  `include/core/server.hpp`, `include/core/client_connection.hpp`);
* the process entry point (`src/main.cpp`).

Machine integers (`uint64_t`, `size_t`) are modelled as `Nat` with explicit
`% 2 ^ 64` where the C++ arithmetic can wrap.
-/

namespace SecureChat

/-- `2 ^ 64`, the modulus of `uint64_t` / `size_t` arithmetic. -/
def U64 : Nat := 18446744073709551616

/-! ## Session cryptography (spec §4.2, spec-modelled)

`EncryptionManager`'s member definitions are absent from the sources (only the
header, its unit tests and its callers are present), so the definitions below
are modelled from the spec.  The AES-256-CTR keystream and the HMAC-SHA256 tag
function are cryptographic primitives whose internals the spec only names;
they are carried as explicit function parameters (`CryptoPrims`), so every
theorem below holds for all instantiations of the primitives, and witnesses
instantiate them with small concrete functions. -/

/-- Modelled from the spec: the two symmetric primitives the envelope uses.
`ks key iv i` is byte `i` of the AES-256-CTR keystream selected by the
confidentiality key and the IV (spec: "ciphertext C = AES-256-CTR(key_c, IV, P)",
CTR mode XORs the plaintext with this keystream).  `mac key data` is the
HMAC-SHA256 tag of `data` under the HMAC key. -/
structure CryptoPrims where
  ks : List Nat → List Nat → Nat → Nat
  mac : List Nat → List Nat → List Nat

/-- Spec §4.2: "Fails with: KeyExchangeFailed …, IntegrityFailed (HMAC
mismatch; terminate), ReplayDetected (sequence not strictly greater;
terminate), DecryptFailed". -/
inductive CryptoError where
  | KeyExchangeFailed
  | IntegrityFailed
  | ReplayDetected
  | DecryptFailed
deriving DecidableEq, Repr

/-- `struct EncryptedMessage` of `encryption_manager.hpp` (bytes as `Nat`). -/
structure EncryptedMessage where
  ciphertext : List Nat
  iv : List Nat
  hmac : List Nat
  timestamp : Nat
  sequence_number : Nat
deriving DecidableEq, Repr

/-- The per-direction session state of `EncryptionManager`
(`session_key_`, `hmac_key_`, `send_sequence_`, `expected_receive_sequence_`,
all from the header; both counters initialise to 0).

Modelled from the spec: the receive side stores the next acceptable sequence
number (`expected_receive_sequence_`, init 0 — "first expected = 0"), and an
envelope replays exactly when `seq < expected`, i.e. when `seq` is at most the
highest sequence number accepted so far.  The spec phrases the same check as
"fail-closed if seq ≤ highest-accepted" and "advance highest-accepted = seq";
with `expected = highest + 1` the two readings coincide, and the
`expected`-representation is the one that also accepts the very first envelope
at seq 0 (spec §8, scenario 1). -/
structure EncryptionManager where
  session_key : List Nat
  hmac_key : List Nat
  send_sequence : Nat
  expected_receive_sequence : Nat
deriving DecidableEq, Repr

/-- Big-endian 8-byte encoding of a `u64` (spec §6: integers network order). -/
def u64be (n : Nat) : List Nat :=
  [n / 2 ^ 56 % 256, n / 2 ^ 48 % 256, n / 2 ^ 40 % 256, n / 2 ^ 32 % 256,
   n / 2 ^ 24 % 256, n / 2 ^ 16 % 256, n / 2 ^ 8 % 256, n % 256]

/-- CTR-mode byte stream: XOR each byte with the keystream byte at its
position (starting at position `i`).  Keystream bytes are masked to 8 bits. -/
def ctrXor (f : Nat → Nat) : Nat → List Nat → List Nat
  | _, [] => []
  | i, b :: bs => (b ^^^ (f i % 256)) :: ctrXor f (i + 1) bs

/-- The HMAC input: `seq ‖ ts ‖ IV ‖ C` (spec §4.2). -/
def macInput (seq ts : Nat) (iv c : List Nat) : List Nat :=
  u64be seq ++ u64be ts ++ iv ++ c

/-- Modelled from the spec (the body of `EncryptionManager::encrypt` is not in
the sources): "Encrypt path, given plaintext P: draw a random 16-byte IV;
produce ciphertext C = AES-256-CTR(key_c, IV, P); compute
tag = HMAC-SHA256(key_h, seq ‖ ts ‖ IV ‖ C); increment seq; emit envelope
{seq, ts, IV, C, tag}."  The random IV draw and the timestamp are inputs of the
model; the sequence counter is a `uint64_t` and increments modulo `2 ^ 64`. -/
def EncryptionManager.encrypt (p : CryptoPrims) (s : EncryptionManager)
    (plaintext iv : List Nat) (ts : Nat) :
    EncryptedMessage × EncryptionManager :=
  let seq := s.send_sequence
  let c := ctrXor (p.ks s.session_key iv) 0 plaintext
  ({ ciphertext := c, iv := iv,
     hmac := p.mac s.hmac_key (macInput seq ts iv c),
     timestamp := ts, sequence_number := seq },
   { s with send_sequence := (seq + 1) % U64 })

/-- Modelled from the spec (the body of `EncryptionManager::decrypt` is not in
the sources): "Decrypt path: fail-closed if seq ≤ highest-accepted; recompute
HMAC and reject on mismatch; decrypt; advance highest-accepted = seq."
On failure the error that terminates the connection is returned and the
receive state is left unchanged. -/
def EncryptionManager.decrypt (p : CryptoPrims) (s : EncryptionManager)
    (e : EncryptedMessage) : Except CryptoError (List Nat) × EncryptionManager :=
  if e.sequence_number < s.expected_receive_sequence then
    (Except.error CryptoError.ReplayDetected, s)
  else if p.mac s.hmac_key
      (macInput e.sequence_number e.timestamp e.iv e.ciphertext) ≠ e.hmac then
    (Except.error CryptoError.IntegrityFailed, s)
  else
    (Except.ok (ctrXor (p.ks s.session_key e.iv) 0 e.ciphertext),
     { s with expected_receive_sequence := e.sequence_number + 1 })

/-- Modelled from the spec (the body of `EncryptionManager::rotateKeys` is not
in the sources): "a new shared secret is established (fresh ephemeral keypair
+ exchange), new keys are derived, and both sequence counters are reset to 0
… a successful rekey atomically swaps key material."  The freshly derived key
material is an input of the model. -/
def EncryptionManager.rotateKeys (_s : EncryptionManager)
    (new_session_key new_hmac_key : List Nat) : EncryptionManager :=
  { session_key := new_session_key, hmac_key := new_hmac_key,
    send_sequence := 0, expected_receive_sequence := 0 }

/-- The sequence numbers of the envelopes a receiver accepts, in presentation
order, starting from receive state `s` (rejected envelopes leave the state
unchanged and are skipped, as in `decrypt`). -/
def acceptedSeqs (p : CryptoPrims) (s : EncryptionManager) :
    List EncryptedMessage → List Nat
  | [] => []
  | e :: es =>
    match EncryptionManager.decrypt p s e with
    | (Except.ok _, s') => e.sequence_number :: acceptedSeqs p s' es
    | (Except.error _, s') => acceptedSeqs p s' es

/-! ## Connection registry and router (`src/core/server.cpp`)

The registry and router logic is translated from `Server`'s member functions.
`ClientConnection`'s inline accessors (`getId`, `getState`, `isAuthenticated`,
`isConnected`) come from `include/core/client_connection.hpp`; of its
out-of-line members only `sendEncryptedMessage` is needed, whose observable
effect is modelled as appending to the connection's outbound queue
(spec §4.7: "targeted enqueue" / "enqueue msg on each"). -/

/-- `enum class ClientState` of `client_connection.hpp`. -/
inductive ClientState where
  | CONNECTING
  | AUTHENTICATING
  | AUTHENTICATED
  | DISCONNECTING
  | DISCONNECTED
deriving DecidableEq, Repr

/-- A connection as the registry sees it.  `client_id` and `state` are the
header's fields.  `username` is the principal bound to the connection
(modelled from the spec's data model — the header stores no username and the
registry code never reads one, which is exactly what claim C4 is about).
`queue` is the outbound message queue fed by `sendEncryptedMessage`. -/
structure ClientConnection where
  client_id : Nat
  state : ClientState
  username : String
  queue : List String
deriving DecidableEq, Repr

/-- `isAuthenticated`: `state_.load() == ClientState::AUTHENTICATED`. -/
def ClientConnection.isAuthenticated (c : ClientConnection) : Bool :=
  match c.state with
  | ClientState.AUTHENTICATED => true
  | _ => false

/-- `isConnected`: `state != DISCONNECTED && state != DISCONNECTING`. -/
def ClientConnection.isConnected (c : ClientConnection) : Bool :=
  match c.state with
  | ClientState.DISCONNECTED => false
  | ClientState.DISCONNECTING => false
  | _ => true

/-- The server state the claims touch: `clients_` (the
`unordered_map<uint64_t, shared_ptr<ClientConnection>>`, as an association
list keyed by connection id) and the `total_messages_sent_` counter
(`atomic<uint64_t>`). -/
structure Server where
  clients : List (Nat × ClientConnection)
  total_messages_sent : Nat
deriving DecidableEq, Repr

/-- `unordered_map` indexing `clients_[id] = client`: replace the entry with
that key if present, otherwise append a new entry. -/
def mapInsert (l : List (Nat × ClientConnection)) (k : Nat)
    (v : ClientConnection) : List (Nat × ClientConnection) :=
  if l.any (fun q => q.1 == k) then
    l.map (fun q => if q.1 == k then (k, v) else q)
  else
    l ++ [(k, v)]

/-- `Server::addClient` (server.cpp:158): inserts the connection into
`clients_` keyed by its id.  (The function does nothing else to the map: no
username lookup, no termination of a prior session.) -/
def Server.addClient (s : Server) (c : ClientConnection) : Server :=
  { s with clients := mapInsert s.clients c.client_id c }

/-- `Server::removeClient` (server.cpp:175): erase the entry with the given
key, if any. -/
def Server.removeClient (s : Server) (id : Nat) : Server :=
  { s with clients := s.clients.filter (fun q => !(q.1 == id)) }

/-- `Server::getClient` (server.cpp:190): `find` in `clients_`, null when
absent. -/
def Server.getClient (s : Server) (id : Nat) : Option ClientConnection :=
  (s.clients.find? (fun q => q.1 == id)).map (fun q => q.2)

/-- The error the router reports to its caller.  Spec §7 names `PeerNotFound`
for targeted sends; the C++ `Server::sendToClient` has return type `void`,
so the error component of the model is what the function actually
communicates back — nothing. -/
inductive RouterError where
  | NotFound
deriving DecidableEq, Repr

/-- `Server::sendToClient` (server.cpp:214): if the client exists and is
authenticated, enqueue the message for it and bump `total_messages_sent_`;
otherwise do nothing.  The second component is the error returned to the
caller, which is always `none` because the C++ function returns `void`. -/
def Server.sendToClient (s : Server) (id : Nat) (m : String) :
    Server × Option RouterError :=
  match Server.getClient s id with
  | some c =>
    if c.isAuthenticated then
      ({ clients := s.clients.map (fun q =>
            if q.1 == id then (q.1, { q.2 with queue := q.2.queue ++ [m] }) else q),
         total_messages_sent := (s.total_messages_sent + 1) % U64 }, none)
    else (s, none)
  | none => (s, none)

/-- `Server::broadcastMessage` (server.cpp:196): enqueue the message on every
authenticated client other than the sender, then add
`clients_.size() - (sender_id ? 1 : 0)` to `total_messages_sent_` — a
`size_t` subtraction followed by a `uint64_t` `fetch_add`, both wrapping
modulo `2 ^ 64`. -/
def Server.broadcastMessage (s : Server) (m : String) (sender_id : Nat) : Server :=
  { clients := s.clients.map (fun q =>
      if !(q.1 == sender_id) && q.2.isAuthenticated then
        (q.1, { q.2 with queue := q.2.queue ++ [m] })
      else q),
    total_messages_sent :=
      (s.total_messages_sent +
        (s.clients.length + U64 - (if sender_id ≠ 0 then 1 else 0)) % U64) % U64 }

/-- `Server::cleanupDisconnectedClients` (server.cpp:284): collect the ids of
clients for which `isConnected()` is false, then `removeClient` each. -/
def Server.cleanupDisconnectedClients (s : Server) : Server :=
  let disconnected :=
    (s.clients.filter (fun q => !q.2.isConnected)).map (fun q => q.1)
  disconnected.foldl Server.removeClient s

/-- The uniqueness invariant claim C4 asserts of the registry: no two
authenticated registry entries carry the same username (spec §3: "at most one
live connection per username"). -/
def usernameUnique (s : Server) : Prop :=
  ∀ q1 ∈ s.clients, ∀ q2 ∈ s.clients,
    q1.2.isAuthenticated = true → q2.2.isAuthenticated = true →
      q1.2.username = q2.2.username → q1.1 = q2.1

/-! ## Process entry point (`src/main.cpp`) -/

/-- The command-line loop of `main` (main.cpp:79-123): `some code` when the
loop returns early with that exit code (`-h`/`--help` and `-v`/`--version`
print and return 0; a value-taking option without its value and an unknown
option return 1), `none` when parsing falls through to server startup.
Value-taking options consume the following argument; `-d`/`--daemon` only
sets a flag.  (`std::stoi` of the port/thread values is treated as total;
its failure aborts the process outside the modelled return paths.) -/
def parseArgs : List String → Option Nat
  | [] => none
  | a :: rest =>
    if a = "-h" ∨ a = "--help" then some 0
    else if a = "-v" ∨ a = "--version" then some 0
    else if a = "-c" ∨ a = "--config" then
      match rest with
      | [] => some 1
      | _ :: r => parseArgs r
    else if a = "-p" ∨ a = "--port" then
      match rest with
      | [] => some 1
      | _ :: r => parseArgs r
    else if a = "-t" ∨ a = "--threads" then
      match rest with
      | [] => some 1
      | _ :: r => parseArgs r
    else if a = "-l" ∨ a = "--log-level" then
      match rest with
      | [] => some 1
      | _ :: r => parseArgs r
    else if a = "-d" ∨ a = "--daemon" then parseArgs rest
    else some 1

/-- One run of the process, by what happens at each decision point of `main`:
whether the configuration file loads (main.cpp:152), whether
`Server::initialize` succeeds (main.cpp:168), whether an exception reaches the
catch-all handlers (main.cpp:210-218, covering `start()` and the run loop),
and whether a termination signal arrives (the `signalHandler`,
main.cpp:16-26, calls `exit(0)`). -/
structure RunScenario where
  args : List String
  config_load_ok : Bool
  init_ok : Bool
  runtime_exception : Bool
  signal_received : Bool
deriving DecidableEq, Repr

/-- Observable fate of the process: exit with a code, or keep running (the
statistics loop at main.cpp:196-208 never returns). -/
inductive ExitOutcome where
  | exited (code : Nat)
  | running
deriving DecidableEq, Repr

/-- The exit behaviour of `main` (main.cpp:71-221): early exits from argument
parsing; exit 1 when configuration loading fails; exit 1 when server
initialisation fails; exit 1 from the catch-all handlers on any exception
after startup; exit 0 via the signal handler on normal shutdown; otherwise
the process keeps running. -/
def mainExit (sc : RunScenario) : ExitOutcome :=
  match parseArgs sc.args with
  | some code => ExitOutcome.exited code
  | none =>
    if !sc.config_load_ok then ExitOutcome.exited 1
    else if !sc.init_ok then ExitOutcome.exited 1
    else if sc.runtime_exception then ExitOutcome.exited 1
    else if sc.signal_received then ExitOutcome.exited 0
    else ExitOutcome.running

/-! ## Concrete instances used by witnesses and counterexamples -/

/-- Concrete primitives used by the witnesses: a toy keystream and a tag that
concatenates the key to the data (distinct keys give distinct tags). -/
def testPrims : CryptoPrims where
  ks := fun key iv i => (key.sum + iv.sum + i) % 256
  mac := fun key data => key ++ data

/-- A concrete 16-byte IV. -/
def ivA : List Nat := List.replicate 16 7

/-- A concrete plaintext. -/
def ptA : List Nat := [104, 105, 33]

/-- A concrete mid-session receive state (highest accepted so far = 5). -/
def emA : EncryptionManager :=
  { session_key := [1, 2], hmac_key := [3],
    send_sequence := 4, expected_receive_sequence := 6 }

/-- A concrete stale envelope (sequence number 3 ≤ highest accepted 5). -/
def envReplay : EncryptedMessage :=
  { ciphertext := [10], iv := ivA, hmac := [0], timestamp := 5,
    sequence_number := 3 }

/-- A concrete fresh session state. -/
def emFresh : EncryptionManager :=
  { session_key := [1, 2], hmac_key := [3],
    send_sequence := 0, expected_receive_sequence := 0 }

/-- An authenticated connection named alice, id 1. -/
def aliceConn1 : ClientConnection :=
  { client_id := 1, state := ClientState.AUTHENTICATED, username := "alice",
    queue := [] }

/-- A second authenticated connection also named alice, id 2. -/
def aliceConn2 : ClientConnection :=
  { client_id := 2, state := ClientState.AUTHENTICATED, username := "alice",
    queue := [] }

/-- The empty registry. -/
def emptyServer : Server := { clients := [], total_messages_sent := 0 }

/-- Registering two authenticated connections that share the username. -/
def dupServer : Server :=
  Server.addClient (Server.addClient emptyServer aliceConn1) aliceConn2

/-- A connection still in the `CONNECTING` state, id 5. -/
def bobConn : ClientConnection :=
  { client_id := 5, state := ClientState.CONNECTING, username := "bob",
    queue := [] }

/-- A registry holding only `bobConn`. -/
def srvBob : Server := { clients := [(5, bobConn)], total_messages_sent := 0 }

/-- An authenticated connection, id 7. -/
def carolConn : ClientConnection :=
  { client_id := 7, state := ClientState.AUTHENTICATED, username := "carol",
    queue := [] }

/-- A registry holding only the authenticated `carolConn`. -/
def authServer : Server :=
  { clients := [(7, carolConn)], total_messages_sent := 0 }

/-- A connection in the `DISCONNECTING` (drain) state, id 3. -/
def drainingConn : ClientConnection :=
  { client_id := 3, state := ClientState.DISCONNECTING, username := "dave",
    queue := [] }

/-- A registry holding only the draining `drainingConn`. -/
def drainingServer : Server :=
  { clients := [(3, drainingConn)], total_messages_sent := 0 }

/-- A registry with one authenticated and one non-authenticated client. -/
def bcastServer : Server :=
  { clients := [(7, carolConn), (3, drainingConn)], total_messages_sent := 0 }

/-- A concrete message. -/
def msgHi : String := "hi"

/-- A run in which startup succeeds and an exception then reaches the
catch-all handler. -/
def crashScenario : RunScenario :=
  { args := [], config_load_ok := true, init_ok := true,
    runtime_exception := true, signal_received := false }

/-- A run in which the configuration file fails to load. -/
def badConfigScenario : RunScenario :=
  { args := [], config_load_ok := false, init_ok := true,
    runtime_exception := false, signal_received := false }

/-! ## Theorems -/

theorem U64_eq : U64 = 2 ^ 64 := by norm_num [U64]

theorem ctrXor_ctrXor (f : Nat → Nat) : ∀ (i : Nat) (l : List Nat),
    ctrXor f i (ctrXor f i l) = l := by
  intro i l
  induction l generalizing i with
  | nil => rfl
  | cons b bs ih =>
    simp [ctrXor, Nat.xor_assoc, Nat.xor_self, ih]

/-- Every sequence number the receiver accepts is at least the expected
receive sequence it started from. -/
theorem acceptedSeqs_lower (p : CryptoPrims) :
    ∀ (es : List EncryptedMessage) (s : EncryptionManager),
      ∀ x ∈ acceptedSeqs p s es, s.expected_receive_sequence ≤ x := by
  intro es
  induction es with
  | nil => intro s x hx; simp [acceptedSeqs] at hx
  | cons e tl ih =>
    intro s x hx
    by_cases h1 : e.sequence_number < s.expected_receive_sequence
    · have hd : EncryptionManager.decrypt p s e
          = (Except.error CryptoError.ReplayDetected, s) := by
        simp [EncryptionManager.decrypt, h1]
      simp only [acceptedSeqs, hd] at hx
      exact ih s x hx
    · by_cases h2 : p.mac s.hmac_key
          (macInput e.sequence_number e.timestamp e.iv e.ciphertext) = e.hmac
      · have hd : EncryptionManager.decrypt p s e
            = (Except.ok (ctrXor (p.ks s.session_key e.iv) 0 e.ciphertext),
               { s with expected_receive_sequence := e.sequence_number + 1 }) := by
          simp [EncryptionManager.decrypt, h1, h2]
        simp only [acceptedSeqs, hd] at hx
        rcases List.mem_cons.mp hx with hx | hx
        · omega
        · have := ih _ x hx
          simp at this
          omega
      · have hd : EncryptionManager.decrypt p s e
            = (Except.error CryptoError.IntegrityFailed, s) := by
          simp [EncryptionManager.decrypt, h1, h2]
        simp only [acceptedSeqs, hd] at hx
        exact ih s x hx

/-- The accepted sequence numbers form a strictly increasing list, whatever
envelopes (reordered, replayed, or tampered) are presented. -/
theorem acceptedSeqs_chain (p : CryptoPrims) :
    ∀ (es : List EncryptedMessage) (s : EncryptionManager),
      List.Chain' (fun a b => a < b) (acceptedSeqs p s es) := by
  intro es
  induction es with
  | nil => intro s; simp [acceptedSeqs]
  | cons e tl ih =>
    intro s
    by_cases h1 : e.sequence_number < s.expected_receive_sequence
    · have hd : EncryptionManager.decrypt p s e
          = (Except.error CryptoError.ReplayDetected, s) := by
        simp [EncryptionManager.decrypt, h1]
      simp only [acceptedSeqs, hd]
      exact ih s
    · by_cases h2 : p.mac s.hmac_key
          (macInput e.sequence_number e.timestamp e.iv e.ciphertext) = e.hmac
      · have hd : EncryptionManager.decrypt p s e
            = (Except.ok (ctrXor (p.ks s.session_key e.iv) 0 e.ciphertext),
               { s with expected_receive_sequence := e.sequence_number + 1 }) := by
          simp [EncryptionManager.decrypt, h1, h2]
        simp only [acceptedSeqs, hd]
        refine List.chain'_cons'.mpr ⟨?_, ih _⟩
        intro y hy
        have hmem := List.mem_of_mem_head? hy
        have := acceptedSeqs_lower p tl _ y hmem
        simp at this
        omega
      · have hd : EncryptionManager.decrypt p s e
            = (Except.error CryptoError.IntegrityFailed, s) := by
          simp [EncryptionManager.decrypt, h1, h2]
        simp only [acceptedSeqs, hd]
        exact ih s

/-- C1: on the decrypt path, an envelope whose sequence number is at most the
highest-accepted receive sequence `h` (receive state `expected = h + 1`) is
rejected with `ReplayDetected` and the receive state is unchanged; an envelope
with a strictly greater sequence number and a valid tag is accepted and the
highest-accepted sequence advances to it; consequently the sequence numbers of
accepted envelopes are strictly increasing across any injected reordering. -/
theorem decrypt_replay_protection (p : CryptoPrims) (s : EncryptionManager)
    (e : EncryptedMessage) (h : Nat)
    (hacc : s.expected_receive_sequence = h + 1) :
    (e.sequence_number ≤ h →
        EncryptionManager.decrypt p s e
          = (Except.error CryptoError.ReplayDetected, s)) ∧
    (h < e.sequence_number →
      p.mac s.hmac_key
          (macInput e.sequence_number e.timestamp e.iv e.ciphertext) = e.hmac →
        (EncryptionManager.decrypt p s e).1
            = Except.ok (ctrXor (p.ks s.session_key e.iv) 0 e.ciphertext) ∧
          (EncryptionManager.decrypt p s e).2.expected_receive_sequence
            = e.sequence_number + 1) ∧
    (∀ es, List.Chain' (fun a b => a < b) (acceptedSeqs p s es)) := by
  refine ⟨?_, ?_, fun es => acceptedSeqs_chain p es s⟩
  · intro hle
    have h1 : e.sequence_number < s.expected_receive_sequence := by omega
    simp [EncryptionManager.decrypt, h1]
  · intro hgt hmac
    have h1 : ¬ e.sequence_number < s.expected_receive_sequence := by omega
    simp [EncryptionManager.decrypt, h1, hmac]

/-- Witness for C1: the stale envelope is rejected as a replay and the
receive state is unchanged. -/
theorem decrypt_replay_protection_witness :
    EncryptionManager.decrypt testPrims emA envReplay
      = (Except.error CryptoError.ReplayDetected, emA) :=
  (decrypt_replay_protection testPrims emA envReplay 5 (by decide)).1 (by decide)

/-- C2: after session keys are established, decrypting the envelope that
`encrypt` just produced (in the post-encrypt state, as the round-trip unit
test does) yields the original plaintext, for every plaintext, IV draw and
timestamp, provided the direction is in sync (the expected receive sequence
does not exceed the send sequence, as holds on a fresh or mirrored session). -/
theorem encrypt_decrypt_roundtrip (p : CryptoPrims) (s : EncryptionManager)
    (plaintext iv : List Nat) (ts : Nat)
    (hsync : s.expected_receive_sequence ≤ s.send_sequence) :
    (EncryptionManager.decrypt p (EncryptionManager.encrypt p s plaintext iv ts).2
        (EncryptionManager.encrypt p s plaintext iv ts).1).1
      = Except.ok plaintext := by
  have h1 : ¬ s.send_sequence < s.expected_receive_sequence := by omega
  simp [EncryptionManager.encrypt, EncryptionManager.decrypt, h1, ctrXor_ctrXor]

/-- Witness for C2: the round trip at a concrete fresh session and plaintext. -/
theorem encrypt_decrypt_roundtrip_witness :
    (EncryptionManager.decrypt testPrims
        (EncryptionManager.encrypt testPrims emFresh ptA ivA 99).2
        (EncryptionManager.encrypt testPrims emFresh ptA ivA 99).1).1
      = Except.ok ptA :=
  encrypt_decrypt_roundtrip testPrims emFresh ptA ivA 99 (by decide)

/-- C3: `rotateKeys` installs the freshly derived key material and resets both
sequence counters to 0: the next `encrypt` emits sequence number 0, the
expected receive sequence is 0, the new session key differs from the old one
whenever the fresh material does, and an envelope protected by the old keys
fails verification (`IntegrityFailed`) whenever its old tag does not collide
with the tag recomputed under the new HMAC key. -/
theorem rotateKeys_resets (p : CryptoPrims) (s : EncryptionManager)
    (nk nh plaintext iv : List Nat) (ts : Nat) :
    (EncryptionManager.rotateKeys s nk nh).send_sequence = 0 ∧
    (EncryptionManager.rotateKeys s nk nh).expected_receive_sequence = 0 ∧
    (EncryptionManager.encrypt p (EncryptionManager.rotateKeys s nk nh)
        plaintext iv ts).1.sequence_number = 0 ∧
    (nk ≠ s.session_key →
      (EncryptionManager.rotateKeys s nk nh).session_key ≠ s.session_key) ∧
    (p.mac nh (macInput (EncryptionManager.encrypt p s plaintext iv ts).1.sequence_number
          ts iv (EncryptionManager.encrypt p s plaintext iv ts).1.ciphertext)
        ≠ (EncryptionManager.encrypt p s plaintext iv ts).1.hmac →
      EncryptionManager.decrypt p (EncryptionManager.rotateKeys s nk nh)
          (EncryptionManager.encrypt p s plaintext iv ts).1
        = (Except.error CryptoError.IntegrityFailed,
           EncryptionManager.rotateKeys s nk nh)) := by
  refine ⟨rfl, rfl, rfl,
    fun hne => by simpa [EncryptionManager.rotateKeys] using hne, ?_⟩
  intro hmac_ne
  simp only [EncryptionManager.encrypt, EncryptionManager.rotateKeys] at hmac_ne ⊢
  simp [EncryptionManager.decrypt, hmac_ne]

/-- Witness for C3: after a concrete rekey the send counter is 0 and the
envelope produced under the old keys is rejected with `IntegrityFailed`. -/
theorem rotateKeys_resets_witness :
    (EncryptionManager.rotateKeys emA [9] [8]).send_sequence = 0 ∧
    EncryptionManager.decrypt testPrims (EncryptionManager.rotateKeys emA [9] [8])
        (EncryptionManager.encrypt testPrims emA ptA ivA 99).1
      = (Except.error CryptoError.IntegrityFailed,
         EncryptionManager.rotateKeys emA [9] [8]) :=
  ⟨(rotateKeys_resets testPrims emA [9] [8] ptA ivA 99).1,
   (rotateKeys_resets testPrims emA [9] [8] ptA ivA 99).2.2.2.2 (by decide)⟩

/-- C4 counterexample: registering two authenticated connections that share
the username leaves both in the registry — the uniqueness invariant fails,
the prior connection is untouched (still present, still authenticated), and
no index entry was replaced. -/
theorem addClient_username_collision :
    ¬ usernameUnique dupServer ∧
    (1, aliceConn1) ∈ dupServer.clients ∧
    (2, aliceConn2) ∈ dupServer.clients ∧
    aliceConn1.username = aliceConn2.username := by
  refine ⟨?_, by decide, by decide, by decide⟩
  intro h
  have := h (1, aliceConn1) (by decide) (2, aliceConn2) (by decide)
    (by decide) (by decide) (by decide)
  simp at this

/-- C4 amended: `addClient` keys the registry only by connection id — every
entry with a different id is preserved unchanged (no prior session is
terminated, whatever its username), the new connection is inserted under its
id, and nothing else changes. -/
theorem addClient_keyed_by_id (s : Server) (c : ClientConnection) :
    (∀ k conn, (k, conn) ∈ s.clients → k ≠ c.client_id →
        (k, conn) ∈ (Server.addClient s c).clients) ∧
    (c.client_id, c) ∈ (Server.addClient s c).clients ∧
    (Server.addClient s c).total_messages_sent = s.total_messages_sent := by
  refine ⟨?_, ?_, rfl⟩
  · intro k conn hmem hk
    simp only [Server.addClient, mapInsert]
    split
    · refine List.mem_map.mpr ⟨(k, conn), hmem, ?_⟩
      simp [hk]
    · exact List.mem_append_left _ hmem
  · simp only [Server.addClient, mapInsert]
    split
    · next hany =>
      rcases List.any_eq_true.mp hany with ⟨q, hq, hq1⟩
      refine List.mem_map.mpr ⟨q, hq, ?_⟩
      simp at hq1
      simp [hq1]
    · exact List.mem_append_right _ (List.mem_singleton.mpr rfl)

/-- Witness for C4 amended: adding alice leaves bob's unrelated entry
untouched. -/
theorem addClient_keyed_by_id_witness :
    (5, bobConn) ∈ (Server.addClient srvBob aliceConn1).clients :=
  (addClient_keyed_by_id srvBob aliceConn1).1 5 bobConn (by decide) (by decide)

/-- C5 counterexample: a targeted send to an id that has no connection
reports no `NotFound` error to the caller — `sendToClient` returns `void`,
so nothing at all is returned. -/
theorem sendToClient_returns_no_error :
    Server.getClient emptyServer 5 = none ∧
    (Server.sendToClient emptyServer 5 msgHi).2 ≠ some RouterError.NotFound := by
  refine ⟨rfl, by decide⟩

/-- C5 amended: when the target id has no connection, or the connection is
not authenticated, `sendToClient` silently does nothing — no error is
returned to the caller and the server state (queues and counters) is
unchanged; when the target is authenticated it enqueues the message on that
connection and bumps the sent counter, still returning no error. -/
theorem sendToClient_silent (s : Server) (id : Nat) (m : String) :
    (Server.getClient s id = none → Server.sendToClient s id m = (s, none)) ∧
    (∀ c, Server.getClient s id = some c → c.isAuthenticated = false →
        Server.sendToClient s id m = (s, none)) ∧
    (∀ c, Server.getClient s id = some c → c.isAuthenticated = true →
        (Server.sendToClient s id m).2 = none ∧
        (Server.sendToClient s id m).1.total_messages_sent
          = (s.total_messages_sent + 1) % U64 ∧
        (∀ k conn, (k, conn) ∈ s.clients → k = id →
          (k, { conn with queue := conn.queue ++ [m] })
            ∈ (Server.sendToClient s id m).1.clients)) := by
  refine ⟨?_, ?_, ?_⟩
  · intro h
    simp [Server.sendToClient, h]
  · intro c hc hauth
    simp [Server.sendToClient, hc, hauth]
  · intro c hc hauth
    refine ⟨by simp [Server.sendToClient, hc, hauth], by simp [Server.sendToClient, hc, hauth], ?_⟩
    intro k conn hmem hkid
    simp only [Server.sendToClient, hc, hauth, if_true]
    refine List.mem_map.mpr ⟨(k, conn), hmem, ?_⟩
    simp [hkid]

/-- Witness for C5 amended: sending to the authenticated carol enqueues the
message on her connection. -/
theorem sendToClient_silent_witness :
    (7, { carolConn with queue := carolConn.queue ++ [msgHi] })
      ∈ (Server.sendToClient authServer 7 msgHi).1.clients :=
  ((sendToClient_silent authServer 7 msgHi).2.2 carolConn (by decide)
    (by decide)).2.2 7 carolConn (by decide) rfl

/-- Auxiliary: folding `removeClient` over a list of ids filters out every
entry whose key is in the list. -/
theorem foldl_removeClient (ids : List Nat) :
    ∀ s : Server, (ids.foldl Server.removeClient s).clients
      = s.clients.filter (fun q => !(ids.contains q.1)) := by
  induction ids with
  | nil => intro s; simp
  | cons i tl ih =>
    intro s
    rw [List.foldl_cons, ih]
    simp only [Server.removeClient, List.filter_filter]
    apply List.filter_congr
    intro q _
    simp only [List.contains_cons, Bool.not_or]
    exact Bool.and_comm _ _

/-- C6 counterexample: a connection still in the `DISCONNECTING` state — not
yet in the terminal closed state, its send queue still draining — is removed
from the registry by the cleanup pass. -/
theorem cleanup_removes_draining :
    drainingConn.state = ClientState.DISCONNECTING ∧
    drainingConn.state ≠ ClientState.DISCONNECTED ∧
    (Server.cleanupDisconnectedClients drainingServer).clients = [] := by
  refine ⟨rfl, by decide, by decide⟩

/-- C6 amended: for a registry with distinct connection ids, the cleanup pass
removes exactly the entries whose connection is in the `DISCONNECTING` or
`DISCONNECTED` state (`isConnected()` false), and keeps every connection in
the `CONNECTING`, `AUTHENTICATING` or `AUTHENTICATED` states. -/
theorem cleanup_removes_not_connected (s : Server)
    (hnd : (s.clients.map Prod.fst).Nodup) :
    (Server.cleanupDisconnectedClients s).clients
      = s.clients.filter (fun q => q.2.isConnected) := by
  simp only [Server.cleanupDisconnectedClients]
  rw [foldl_removeClient]
  apply List.filter_congr
  intro q hq
  by_cases hc : q.2.isConnected = true
  · cases hcontains : ((s.clients.filter (fun r => !r.2.isConnected)).map (fun r => r.1)).contains q.1 with
    | false => simp [hcontains, hc]
    | true =>
      exfalso
      rcases List.contains_iff_exists_mem_beq.mp hcontains with ⟨k, hk, hbeq⟩
      rcases List.mem_map.mp hk with ⟨r, hr, hrk⟩
      rcases List.mem_filter.mp hr with ⟨hrmem, hrconn⟩
      have hqr : q = r := by
        refine List.inj_on_of_nodup_map hnd hq hrmem ?_
        show q.1 = r.1
        simp at hbeq
        rw [← hrk] at hbeq
        exact hbeq
      rw [hqr] at hc
      simp at hrconn
      rw [hc] at hrconn
      simp at hrconn
  · have hc' : q.2.isConnected = false := by
      cases hcc : q.2.isConnected with
      | false => rfl
      | true => exact absurd hcc hc
    have hmem : q.1 ∈ (s.clients.filter (fun r => !r.2.isConnected)).map (fun r => r.1) :=
      List.mem_map.mpr ⟨q, List.mem_filter.mpr ⟨hq, by simp [hc']⟩, rfl⟩
    have hcont : ((s.clients.filter (fun r => !r.2.isConnected)).map (fun r => r.1)).contains q.1 = true :=
      List.contains_iff_exists_mem_beq.mpr ⟨q.1, hmem, by simp⟩
    rw [hcont, hc']
    rfl

/-- Witness for C6 amended: on a registry with one authenticated and one
draining client, cleanup removes exactly the draining one. -/
theorem cleanup_removes_not_connected_witness :
    (Server.cleanupDisconnectedClients bcastServer).clients = [(7, carolConn)] := by
  have h := cleanup_removes_not_connected bcastServer (by decide)
  rw [h]
  decide

/-- C7 counterexample: a fatal runtime failure (an exception reaching the
catch-all handlers after a successful startup) makes the process exit with
code 1, not 2. -/
theorem runtime_failure_exit_code :
    mainExit crashScenario = ExitOutcome.exited 1 ∧
    mainExit crashScenario ≠ ExitOutcome.exited 2 := by
  refine ⟨by decide, by decide⟩

/-- Every early exit of the argument-parsing loop uses code 0 or 1. -/
theorem parseArgs_codes :
    ∀ (l : List String) (c : Nat), parseArgs l = some c → c = 0 ∨ c = 1 := by
  have key : ∀ (n : Nat) (l : List String), l.length ≤ n →
      ∀ c, parseArgs l = some c → c = 0 ∨ c = 1 := by
    intro n
    induction n with
    | zero =>
      intro l hl c h
      cases l with
      | nil => simp [parseArgs] at h
      | cons a rest =>
        simp only [List.length_cons] at hl
        omega
    | succ n ih =>
      intro l hl c h
      cases l with
      | nil => simp [parseArgs] at h
      | cons a rest =>
        rw [parseArgs.eq_def] at h
        dsimp only [] at h
        split_ifs at h with h1 h2 h3 h4 h5 h6 h7
        · exact Or.inl (Option.some.inj h).symm
        · exact Or.inl (Option.some.inj h).symm
        · cases rest with
          | nil => exact Or.inr (Option.some.inj h).symm
          | cons b r =>
            refine ih r ?_ c h
            simp at hl
            omega
        · cases rest with
          | nil => exact Or.inr (Option.some.inj h).symm
          | cons b r =>
            refine ih r ?_ c h
            simp at hl
            omega
        · cases rest with
          | nil => exact Or.inr (Option.some.inj h).symm
          | cons b r =>
            refine ih r ?_ c h
            simp at hl
            omega
        · cases rest with
          | nil => exact Or.inr (Option.some.inj h).symm
          | cons b r =>
            refine ih r ?_ c h
            simp at hl
            omega
        · refine ih rest ?_ c h
          simp at hl
          omega
        · exact Or.inr (Option.some.inj h).symm
  intro l c h
  exact key l.length l (Nat.le_refl _) c h

/-- C7 amended: the process exits 0 on a normal termination (help or version
request, or a shutdown signal after a clean run), exits 1 when configuration
loading or server initialisation fails at startup, and also exits 1 — not
2 — on a fatal runtime failure; no run of `main` exits with a code above 1. -/
theorem mainExit_codes (sc : RunScenario) :
    (parseArgs sc.args = none → sc.config_load_ok = false →
        mainExit sc = ExitOutcome.exited 1) ∧
    (parseArgs sc.args = none → sc.config_load_ok = true → sc.init_ok = false →
        mainExit sc = ExitOutcome.exited 1) ∧
    (parseArgs sc.args = none → sc.config_load_ok = true → sc.init_ok = true →
        sc.runtime_exception = true → mainExit sc = ExitOutcome.exited 1) ∧
    (parseArgs sc.args = none → sc.config_load_ok = true → sc.init_ok = true →
        sc.runtime_exception = false → sc.signal_received = true →
        mainExit sc = ExitOutcome.exited 0) ∧
    (∀ n, mainExit sc ≠ ExitOutcome.exited (n + 2)) := by
  refine ⟨?_, ?_, ?_, ?_, ?_⟩
  · intro hp hcfg; simp [mainExit, hp, hcfg]
  · intro hp hcfg hinit; simp [mainExit, hp, hcfg, hinit]
  · intro hp hcfg hinit hex; simp [mainExit, hp, hcfg, hinit, hex]
  · intro hp hcfg hinit hex hsig; simp [mainExit, hp, hcfg, hinit, hex, hsig]
  · intro n
    cases hp : parseArgs sc.args with
    | some c =>
      rcases parseArgs_codes sc.args c hp with h | h <;>
        simp [mainExit, hp, h]
    | none =>
      simp only [mainExit, hp]
      split_ifs <;> simp

/-- Witness for C7 amended: a failing configuration load exits with code 1. -/
theorem mainExit_codes_witness :
    mainExit badConfigScenario = ExitOutcome.exited 1 :=
  (mainExit_codes badConfigScenario).1 rfl rfl

/-- C9: `removeClient` is idempotent — removing the same id twice leaves the
registry exactly as removing it once, and removing an absent id changes
nothing at all. -/
theorem removeClient_idempotent (s : Server) (id : Nat) :
    Server.removeClient (Server.removeClient s id) id = Server.removeClient s id ∧
    (Server.getClient s id = none → Server.removeClient s id = s) := by
  constructor
  · simp [Server.removeClient, List.filter_filter]
  · intro h
    simp only [Server.getClient, Option.map_eq_none'] at h
    have habs := List.find?_eq_none.mp h
    have hf : s.clients.filter (fun q => !(q.1 == id)) = s.clients := by
      apply List.filter_eq_self.mpr
      intro a ha
      have hne : (a.1 == id) = false := by
        cases hb : (a.1 == id) with
        | false => rfl
        | true => exact absurd hb (habs a ha)
      simp [hne]
    cases s
    simp [Server.removeClient, hf]

/-- Witness for C9: removing an id that is not registered changes nothing. -/
theorem removeClient_idempotent_witness :
    Server.removeClient authServer 999 = authServer :=
  (removeClient_idempotent authServer 999).2 (by decide)

/-- C10: `broadcastMessage` adds `clients_.size() - (sender_id ? 1 : 0)` to
`total_messages_sent_` (stated here without `uint64` wraparound, under the
hypotheses that make the `size_t` subtraction and the counter addition not
wrap), counting every registered connection except one slot for a nonzero
sender — regardless of authentication: a non-authenticated entry is counted
even though it is left completely untouched, so the counter can exceed the
number of real recipients. -/
theorem broadcastMessage_counter (s : Server) (m : String) (sender_id : Nat)
    (hd : (if sender_id ≠ 0 then 1 else 0) ≤ s.clients.length)
    (hb : s.total_messages_sent + s.clients.length < U64) :
    (Server.broadcastMessage s m sender_id).total_messages_sent
      = s.total_messages_sent +
          (s.clients.length - (if sender_id ≠ 0 then 1 else 0)) ∧
    (Server.broadcastMessage s m sender_id).clients.length = s.clients.length ∧
    (∀ k c, (k, c) ∈ s.clients → c.isAuthenticated = false →
        (k, c) ∈ (Server.broadcastMessage s m sender_id).clients) := by
  refine ⟨?_, by simp [Server.broadcastMessage], ?_⟩
  · by_cases hs : sender_id ≠ 0 <;>
      simp only [Server.broadcastMessage, hs, if_true, if_false, U64] at hd hb ⊢ <;>
      omega
  · intro k c hmem hauth
    simp only [Server.broadcastMessage]
    refine List.mem_map.mpr ⟨(k, c), hmem, ?_⟩
    simp [hauth]

/-- Witness for C10: with one authenticated and one non-authenticated client
and the authenticated one as sender, the counter grows by 1 although zero
real recipients were enqueued to — the draining client is counted yet
untouched. -/
theorem broadcastMessage_counter_witness :
    (Server.broadcastMessage bcastServer msgHi 7).total_messages_sent = 1 ∧
    (3, drainingConn) ∈ (Server.broadcastMessage bcastServer msgHi 7).clients := by
  have h := broadcastMessage_counter bcastServer msgHi 7 (by decide) (by decide)
  exact ⟨by simpa using h.1, h.2.2 3 drainingConn (by decide) (by decide)⟩

end SecureChat
